import Mathlib

/-!
Shallow embedding of the voice-agent relay server (src/server.js and the
variant src/unnamed/part_003) for verification of the frozen claims.

Conventions of the embedding:
* JS strings are Lean `String`; instants (`Date.now()`, ISO timestamps)
  are `Nat`; a nullable value is `Option`.
* JS truthiness of a nullable string (`if (username)`) is modelled by
  `optStrTruthy`: `null` and the empty string are falsy.
* `str.includes(pat)` is `strHasSub`; `str.trim() !== ""` is
  `!(isBlankStr str)` over the ASCII whitespace the transcripts use.
* The per-connection mutable variables of `wss.on("connection")` form
  `ConnState`; the `openaiWs.on("message")` handler becomes the pure
  `step` function from state and event to new state plus emitted outputs
  (client sends, upstream sends, saveConversation calls).
-/

namespace VoiceAgent

/-- Does the char list start with the pattern list (char-for-char). -/
def startsWithL : List Char → List Char → Bool
  | _, [] => true
  | [], _ :: _ => false
  | c :: cs, p :: ps => c == p && startsWithL cs ps

/-- Does the char list contain the pattern list as a contiguous run. -/
def hasSubL : List Char → List Char → Bool
  | [], pat => pat.isEmpty
  | c :: cs, pat => startsWithL (c :: cs) pat || hasSubL cs pat

/-- JS `s.includes(pat)`: substring containment. -/
def strHasSub (s pat : String) : Bool :=
  hasSubL s.data pat.data

/-- JS `s.trim() === ""`: every character is whitespace. -/
def isBlankStr (s : String) : Bool :=
  s.data.all fun c => c == ' ' || c == '\n' || c == '\t' || c == '\r'

/-- JS truthiness of a nullable string variable. -/
def optStrTruthy : Option String → Bool
  | none => false
  | some v => v != ""

/-- Message roles; every transcript message the server produces carries
`user` or `assistant`. -/
inductive Role
  | user
  | assistant
deriving DecidableEq

/-- One finalized transcript entry, as pushed into `conversationMessages`.
The user-message push in the source leaves `interrupted` absent
(undefined, hence falsy); the embedding stores `false` for it. -/
structure TranscriptMessage where
  sequence : Nat
  role : Role
  content : String
  timestamp : Option Nat
  interrupted : Bool
deriving DecidableEq

/-- The in-progress assistant turn accumulator (`currentAssistantMessage`). -/
structure AssistantAccum where
  role : Role
  content : String
  timestamp : Option Nat
  interrupted : Bool
deriving DecidableEq

/-- The reset value `{ role: "assistant", content: "", timestamp: null,
interrupted: false }` used at connection start and after each turn. -/
def freshAccum : AssistantAccum :=
  { role := .assistant, content := "", timestamp := none, interrupted := false }

/-- The per-connection mutable variables of the connection handler. -/
structure ConnState where
  username : Option String
  conversationId : Option String
  sessionId : Option String
  conversationMessages : List TranscriptMessage
  messageSequence : Nat
  activeResponse : Bool
  currentResponseId : Option String
  currentAssistantMessage : AssistantAccum
deriving DecidableEq

/-- Upstream (OpenAI) events consumed by `openaiWs.on("message")`. Delta
events carry the response id field of the wire event; the handler in the
source never reads it. -/
inductive UpstreamEvent
  | speechStarted
  | speechStopped
  | transcriptionCompleted (transcript : String)
  | responseCreated (id : String)
  | textDelta (responseId : Option String) (delta : String)
  | audioTranscriptDelta (responseId : Option String) (delta : String)
  | audioTranscriptDone (transcript : String)
  | audioDelta (audio : String)
  | responseDone
  | responseCancelled
  | errorEvent (etype : String) (emessage : String)
deriving DecidableEq

/-- Messages the handler sends to the client websocket. -/
inductive ClientMsg
  | responseInterrupted
  | userTranscription (text : String)
  | assistantTranscriptDelta (text : String)
  | assistantTranscriptComplete (text : String)
  | assistantAudioDelta (audio : String)
  | responseComplete
  | errorMsg (emessage : String)
deriving DecidableEq

/-- Messages the handler sends back to the upstream engine. -/
inductive UpstreamSend
  | responseCancel
deriving DecidableEq

/-- Observable effects of one handler invocation, in program order. -/
inductive Output
  | clientSend (msg : ClientMsg)
  | upstreamSend (msg : UpstreamSend)
  | save (username : String) (conversationId : Option String)
      (messages : List TranscriptMessage) (sessionId : Option String)
      (force : Bool)
deriving DecidableEq

/-- The `if (username) saveConversation(username, conversationId, msgs,
sessionId, true)` pattern shared by the three force-save sites of the
upstream-event handler. -/
def saveOuts (s : ConnState) (msgs : List TranscriptMessage) : List Output :=
  match s.username with
  | some u => if u != "" then [Output.save u s.conversationId msgs s.sessionId true] else []
  | none => []

/-- One step of the upstream-event handler `openaiWs.on("message")` of
src/server.js lines 418-589. `now` stands for the instant any
`new Date()` taken during the handler denotes. The handler of
src/unnamed/part_003 lines 398-542 has identical state effects and
differs only by extra client notifications (speech started/stopped,
response creating). -/
def step (now : Nat) (s : ConnState) : UpstreamEvent → ConnState × List Output
  | .speechStarted =>
    if s.activeResponse && optStrTruthy s.currentResponseId then
      let sealedContent := s.currentAssistantMessage.content ++ "..."
      let m : TranscriptMessage :=
        { sequence := s.messageSequence
          role := s.currentAssistantMessage.role
          content := sealedContent
          timestamp := s.currentAssistantMessage.timestamp
          interrupted := true }
      let msgs := s.conversationMessages ++ [m]
      ({ s with
          conversationMessages := msgs
          messageSequence := s.messageSequence + 1
          activeResponse := false
          currentResponseId := none
          currentAssistantMessage := freshAccum },
        saveOuts s msgs
          ++ [Output.upstreamSend .responseCancel, Output.clientSend .responseInterrupted])
    else (s, [])
  | .speechStopped => (s, [])
  | .transcriptionCompleted t =>
    let m : TranscriptMessage :=
      { sequence := s.messageSequence
        role := .user
        content := t
        timestamp := some now
        interrupted := false }
    let msgs := s.conversationMessages ++ [m]
    ({ s with conversationMessages := msgs, messageSequence := s.messageSequence + 1 },
      saveOuts s msgs ++ [Output.clientSend (.userTranscription t)])
  | .responseCreated id =>
    ({ s with
        activeResponse := true
        currentResponseId := some id
        currentAssistantMessage :=
          { role := .assistant, content := "", timestamp := some now, interrupted := false } },
      [])
  | .textDelta _ d =>
    ({ s with currentAssistantMessage :=
        { s.currentAssistantMessage with content := s.currentAssistantMessage.content ++ d } },
      [Output.clientSend (.assistantTranscriptDelta d)])
  | .audioTranscriptDelta _ d =>
    ({ s with currentAssistantMessage :=
        { s.currentAssistantMessage with content := s.currentAssistantMessage.content ++ d } },
      [Output.clientSend (.assistantTranscriptDelta d)])
  | .audioTranscriptDone t =>
    (if s.currentAssistantMessage.content.length < t.length then
      { s with currentAssistantMessage :=
          { s.currentAssistantMessage with content := t } }
     else s,
      [Output.clientSend (.assistantTranscriptComplete t)])
  | .audioDelta a => (s, [Output.clientSend (.assistantAudioDelta a)])
  | .responseDone =>
    let s0 := { s with activeResponse := false, currentResponseId := none }
    let pushed :=
      if isBlankStr s.currentAssistantMessage.content then (s0, ([] : List Output))
      else
        let m : TranscriptMessage :=
          { sequence := s.messageSequence
            role := s.currentAssistantMessage.role
            content := s.currentAssistantMessage.content
            timestamp := s.currentAssistantMessage.timestamp
            interrupted := false }
        let msgs := s.conversationMessages ++ [m]
        ({ s0 with conversationMessages := msgs, messageSequence := s.messageSequence + 1 },
          saveOuts s msgs)
    ({ pushed.1 with currentAssistantMessage := freshAccum },
      pushed.2 ++ [Output.clientSend .responseComplete])
  | .responseCancelled =>
    ({ s with activeResponse := false, currentResponseId := none }, [])
  | .errorEvent etype emsg =>
    (if etype = "invalid_request_error" then
      { s with activeResponse := false, currentResponseId := none }
     else s,
      if strHasSub emsg "buffer too small" || strHasSub emsg "active response" then []
      else [Output.clientSend (.errorMsg emsg)])

/-- A timed upstream event: the instant the handler runs at, and the event. -/
abbrev TEvent := Nat × UpstreamEvent

/-- Process a list of upstream events in arrival order, keeping the state. -/
def runState (s : ConnState) : List TEvent → ConnState
  | [] => s
  | (t, e) :: rest => runState (step t s e).1 rest

/-- The connection state right before the i-th event of the trace runs. -/
def stateAt (s0 : ConnState) (tr : List TEvent) (i : Nat) : ConnState :=
  runState s0 (tr.take i)

/-- Connection-state initialisation from the start handler of
src/unnamed/part_003 lines 270-288: the previous messages the client sent
are preloaded into the local array and `messageSequence` is set to its
length (for an empty preload both writes are the no-op, as in the source
where the preload block is guarded by a non-empty check). -/
def initConn (username sessionId conversationId : Option String)
    (previousMessages : List TranscriptMessage) : ConnState :=
  { username := username
    conversationId := conversationId
    sessionId := sessionId
    conversationMessages := previousMessages
    messageSequence := previousMessages.length
    activeResponse := false
    currentResponseId := none
    currentAssistantMessage := freshAccum }

/-! ## Conversation Reconciler: what the on-open handler sends upstream -/

/-- Content part type of a `conversation.item.create` payload. -/
inductive ContentType
  | inputText
  | text
deriving DecidableEq

/-- Calls sent to the upstream engine right after the websocket opens. The
session-configuration payload (modalities, instruction text, thresholds)
is not examined by any claim and `sessionUpdate` carries no fields. -/
inductive UpstreamCall
  | sessionUpdate
  | itemCreate (role : Role) (ctype : ContentType) (text : String)
  | responseCreate
deriving DecidableEq

/-- The scripted opening utterance of src/server.js line 373 (the closing
double quote is missing in the source). -/
def greetingTextServer : String :=
  "Say \"Hello there, I am Lexi. I am here to assist you in writing the self-reflection on the term paper you wrote. Can you describe your experience there?"

/-- The scripted opening utterance of src/unnamed/part_003 line 383. -/
def greetingTextP3 : String :=
  "Say \"Hello there, I am Lexi. I am here to assist you in writing the self-reflection on the term paper you wrote. Can you describe your experience there?\""

/-- The scripted resume prompt of src/server.js line 399. -/
def welcomeBackText : String :=
  "Say \"Welcome back! Ready to continue?\" in a friendly tone."

/-- One context-replay call for a prior message, as built in
src/unnamed/part_003 lines 352-366: the message keeps its role, user
content is an input-text part, assistant content a text part. The
source guards on the role being user or assistant, which every value of
`Role` is. -/
def replayItem (m : TranscriptMessage) : UpstreamCall :=
  .itemCreate m.role (match m.role with | .user => .inputText | .assistant => .text) m.content

/-- The calls the on-open handler of src/unnamed/part_003 (lines 308-396)
sends upstream, in order: the session configuration, then one replay item
per previous message, then - only for a fresh first session with no
history - the scripted greeting and a generated-turn request. -/
def reconcileOpenP3 (isReconnection hasMessages : Bool)
    (previousMessages : List TranscriptMessage) : List UpstreamCall :=
  [UpstreamCall.sessionUpdate]
    ++ previousMessages.map replayItem
    ++ (if !isReconnection && !hasMessages && previousMessages.length == 0 then
          [UpstreamCall.itemCreate .user .inputText greetingTextP3, UpstreamCall.responseCreate]
        else [])

/-- The calls the on-open handler of src/server.js (lines 320-416) sends
upstream: the session configuration, then either the first-time greeting
plus generated turn, or - when the client reports prior messages - the
welcome-back prompt plus generated turn, or nothing. It never replays
prior messages (it does not receive them). -/
def reconcileOpenServer (isReconnection hasMessages : Bool) : List UpstreamCall :=
  [UpstreamCall.sessionUpdate]
    ++ (if !isReconnection && !hasMessages then
          [UpstreamCall.itemCreate .user .inputText greetingTextServer, UpstreamCall.responseCreate]
        else if hasMessages then
          [UpstreamCall.itemCreate .user .inputText welcomeBackText, UpstreamCall.responseCreate]
        else [])

/-- Is the call the session-configuration message. -/
def isSessionUpdate : UpstreamCall → Bool
  | .sessionUpdate => true
  | _ => false

/-- The on-open calls other than the session configuration. -/
def afterSetup (calls : List UpstreamCall) : List UpstreamCall :=
  calls.filter fun c => !(isSessionUpdate c)

/-- Formalisation of claim C1 for an on-open behaviour `g` taking
(isReconnection, hasMessages, previousMessages): with `hasMessages = true`
the upstream traffic after the session configuration is exactly one
context-replay item per prior message, in original order and role, and
nothing else (hence zero greeting or generated-turn requests); a
first-ever connection with no prior messages yields exactly one scripted
greeting item followed by one generated-turn request. -/
def claimC1On (g : Bool → Bool → List TranscriptMessage → List UpstreamCall) : Prop :=
  (∀ (isReconnection : Bool) (prev : List TranscriptMessage),
      afterSetup (g isReconnection true prev) = prev.map replayItem)
    ∧ (∃ txt, afterSetup (g false false [])
        = [UpstreamCall.itemCreate .user .inputText txt, UpstreamCall.responseCreate])

/-! ## Transcript Store Adapter -/

/-- The persisted record shape `conversationData` built in
src/server.js lines 166-174. -/
structure ConversationRecord where
  username : String
  conversation_id : String
  condition : String
  timestamp : Nat
  messages : List TranscriptMessage
  total_messages : Nat
  updated_at : Nat
deriving DecidableEq

/-- `conversationData` as saveConversation builds it. -/
def mkConversationData (username conversationId : String)
    (messages : List TranscriptMessage) (now : Nat) : ConversationRecord :=
  { username := username
    conversation_id := conversationId
    condition := "C"
    timestamp := now
    messages := messages
    total_messages := messages.length
    updated_at := now }

/-- The primary-store write of src/server.js lines 179-224 as a function
of the stored record for this (username, conversationId) key: no record
inserts; an existing record is overwritten only when the incoming message
count strictly exceeds the stored `total_messages`, else kept. -/
def upsertPrimary (existing : Option ConversationRecord)
    (incoming : ConversationRecord) : Option ConversationRecord :=
  match existing with
  | some e => if e.total_messages < incoming.total_messages then some incoming else some e
  | none => some incoming

/-- The local-file fallback write `saveFallbackLocal` of src/server.js
lines 237-259 as a function of the current file content for this key:
an existing file with at least as many messages is kept, otherwise the
incoming record is written. -/
def upsertLocal (existing : Option ConversationRecord)
    (incoming : ConversationRecord) : Option ConversationRecord :=
  match existing with
  | some e => if incoming.total_messages ≤ e.total_messages then some e else some incoming
  | none => some incoming

/-- Where one save attempt lands. -/
inductive StoreOutcome
  | primary (stored : Option ConversationRecord)
  | localFile (stored : Option ConversationRecord)
deriving DecidableEq

/-- Dispatch of src/server.js lines 176-233: the primary store is used
when the client handle exists and the retried operation does not throw;
on a missing handle or any error the write degrades to the local file. -/
def persistConversation (primaryAvailable primaryFails : Bool)
    (primaryExisting localExisting : Option ConversationRecord)
    (incoming : ConversationRecord) : StoreOutcome :=
  if primaryAvailable && !primaryFails then
    .primary (upsertPrimary primaryExisting incoming)
  else
    .localFile (upsertLocal localExisting incoming)

/-! ## Session Registry: the deduplication and debounce gate -/

/-- One entry of the `activeSessions` map. -/
structure SessionRec where
  username : String
  conversationId : Option String
  messageCount : Nat
  lastSaveTime : Nat
deriving DecidableEq

/-- The front of saveConversation, src/server.js lines 129-164, restricted
to one session key: given the candidate message-list length, whether the
session id argument is present, the force flag, this session's registry
entry and the current instant, it yields whether the write proceeds and
the updated registry entry. An empty candidate list returns early; a
non-forced call for a tracked session is suppressed on equal message
count or on a previous save less than 1000 ms ago, and otherwise updates
the entry and proceeds; every other call with a session id (forced or
untracked) re-registers the entry and proceeds. -/
def saveGate (username : String) (conversationId : Option String) (len : Nat)
    (sessionIdPresent force : Bool) (entry : Option SessionRec) (now : Nat) :
    Bool × Option SessionRec :=
  if len = 0 then (false, entry)
  else
    match entry with
    | some s =>
      if !force && sessionIdPresent then
        if s.messageCount = len then (false, some s)
        else if s.lastSaveTime ≠ 0 ∧ now - s.lastSaveTime < 1000 then (false, some s)
        else (true, some { s with messageCount := len, lastSaveTime := now })
      else if sessionIdPresent then
        (true, some { username := username, conversationId := conversationId,
                      messageCount := len, lastSaveTime := now })
      else (true, some s)
    | none =>
      if sessionIdPresent then
        (true, some { username := username, conversationId := conversationId,
                      messageCount := len, lastSaveTime := now })
      else (true, none)

/-! ## Theorems -/

/-- The src/server.js on-open behaviour lifted to the signature of
`claimC1On`; that handler receives no previous messages and ignores them. -/
def reconcileOpenServerL (isReconnection hasMessages : Bool)
    (_previousMessages : List TranscriptMessage) : List UpstreamCall :=
  reconcileOpenServer isReconnection hasMessages

/-- C1 (counterexample): the on-open handler of src/server.js violates the
claim at the concrete input hasMessages = true with one prior message: it
sends the scripted welcome-back prompt and a generated-turn request and
replays nothing. -/
theorem c1_counterexample : ¬ claimC1On reconcileOpenServerL := by
  intro h
  exact absurd
    (h.1 false [{ sequence := 0, role := .user, content := "hi",
                  timestamp := some 0, interrupted := false }])
    (by decide)

/-- C1 (amended): the on-open handler of src/unnamed/part_003 satisfies the
claim: with hasMessages = true the upstream traffic after the session
configuration is exactly one context-replay item-create call per prior
message, preserving original order and role, and zero greeting or
generated-turn requests; a first-ever connection with no prior messages
sends exactly one greeting item-create followed by one generated-turn
request. -/
theorem c1_reconciler_part003 : claimC1On reconcileOpenP3 := by
  constructor
  · intro isReconnection prev
    simp only [reconcileOpenP3, afterSetup, Bool.not_true, Bool.and_false,
      Bool.false_and, Bool.and_self, if_neg, List.append_nil, Bool.false_eq_true,
      not_false_eq_true, List.filter_append]
    have h1 : ([UpstreamCall.sessionUpdate].filter fun c => !(isSessionUpdate c)) = [] := rfl
    have h2 : ((prev.map replayItem).filter fun c => !(isSessionUpdate c))
        = prev.map replayItem := by
      refine List.filter_eq_self.mpr ?_
      intro a ha
      obtain ⟨m, _, rfl⟩ := List.mem_map.mp ha
      rfl
    rw [h1, h2]
    simp
  · exact ⟨greetingTextP3, rfl⟩

/-- C3: the transcript store upsert is idempotent under length dominance:
no stored record inserts; an incoming list of length at most the stored
total leaves the stored record unchanged; a strictly longer list
overwrites; the local-file fallback applies the same rule as the primary
store; and when the primary store is unavailable or errors, the write
lands on the local file under that rule. -/
theorem c3_upsert_length_dominance (e incoming : ConversationRecord)
    (anyExisting localExisting : Option ConversationRecord)
    (primaryAvailable primaryFails : Bool) :
    (upsertPrimary none incoming = some incoming)
    ∧ (incoming.total_messages ≤ e.total_messages →
        upsertPrimary (some e) incoming = some e)
    ∧ (e.total_messages < incoming.total_messages →
        upsertPrimary (some e) incoming = some incoming)
    ∧ (upsertLocal anyExisting incoming = upsertPrimary anyExisting incoming)
    ∧ ((primaryAvailable = false ∨ primaryFails = true) →
        persistConversation primaryAvailable primaryFails anyExisting localExisting incoming
          = .localFile (upsertLocal localExisting incoming)) := by
  refine ⟨rfl, fun h => ?_, fun h => ?_, ?_, fun h => ?_⟩
  · simp [upsertPrimary, Nat.not_lt.mpr h]
  · simp [upsertPrimary, h]
  · cases anyExisting with
    | none => rfl
    | some e2 =>
      simp only [upsertPrimary, upsertLocal]
      split_ifs with h1 h2 <;> first | rfl | omega
  · rcases h with h | h <;> simp [persistConversation, h]

/-- C3 (witness): the length-dominance facts evaluated at a concrete
stored record of total 2 and an incoming record of total 2, then of
total 3, and a failing primary store. -/
theorem c3_witness :
    (upsertPrimary none (mkConversationData "alice" "c1" [] 5) = some (mkConversationData "alice" "c1" [] 5))
    ∧ (upsertPrimary (some (mkConversationData "alice" "c1"
          [{ sequence := 0, role := .user, content := "a", timestamp := some 1, interrupted := false },
           { sequence := 1, role := .assistant, content := "b", timestamp := some 2, interrupted := false }] 4))
        (mkConversationData "alice" "c1"
          [{ sequence := 0, role := .user, content := "a", timestamp := some 1, interrupted := false },
           { sequence := 1, role := .assistant, content := "b", timestamp := some 2, interrupted := false }] 9)
        = some (mkConversationData "alice" "c1"
          [{ sequence := 0, role := .user, content := "a", timestamp := some 1, interrupted := false },
           { sequence := 1, role := .assistant, content := "b", timestamp := some 2, interrupted := false }] 4))
    ∧ (persistConversation false false none none (mkConversationData "alice" "c1" [] 5)
        = .localFile (some (mkConversationData "alice" "c1" [] 5))) := by
  refine ⟨(c3_upsert_length_dominance (mkConversationData "alice" "c1" [] 5)
      (mkConversationData "alice" "c1" [] 5) none none false false).1, ?_, ?_⟩
  · exact (c3_upsert_length_dominance
      (mkConversationData "alice" "c1"
        [{ sequence := 0, role := .user, content := "a", timestamp := some 1, interrupted := false },
         { sequence := 1, role := .assistant, content := "b", timestamp := some 2, interrupted := false }] 4)
      (mkConversationData "alice" "c1"
        [{ sequence := 0, role := .user, content := "a", timestamp := some 1, interrupted := false },
         { sequence := 1, role := .assistant, content := "b", timestamp := some 2, interrupted := false }] 9)
      none none false false).2.1 (by decide)
  · exact ((c3_upsert_length_dominance (mkConversationData "alice" "c1" [] 5)
      (mkConversationData "alice" "c1" [] 5) none none false false).2.2.2.2
      (Or.inl rfl)).trans (by rfl)

lemma saveOuts_force {s : ConnState} {msgs : List TranscriptMessage} {o : Output}
    (h : o ∈ saveOuts s msgs) :
    ∃ u, o = Output.save u s.conversationId msgs s.sessionId true := by
  unfold saveOuts at h
  match hs : s.username with
  | none => rw [hs] at h; simp at h
  | some u =>
    rw [hs] at h
    by_cases hu : (u != "") = true
    · simp only [hu, if_true, List.mem_singleton] at h
      exact ⟨u, h⟩
    · simp [hu] at h

/-- C7: for a tracked session, a non-forced save is suppressed with the
registry entry unchanged exactly when the entry's message count equals
the candidate length or the previous accepted save was under 1000 ms
ago; otherwise it proceeds and the entry is updated to the new count and
instant; a forced save always proceeds, whatever the entry; and every
save the upstream-event handler itself emits (interruption, user
transcription, turn completion) carries the force flag, so it bypasses
both checks. The candidate list is non-empty, as at every call site of
the source. -/
theorem c7_save_gate (u : String) (cid : Option String) (s : SessionRec)
    (entry : Option SessionRec) (len now : Nat) (sidPresent : Bool)
    (hlen : 0 < len) :
    ((saveGate u cid len true false (some s) now).1 = false
        ↔ (s.messageCount = len ∨ (s.lastSaveTime ≠ 0 ∧ now - s.lastSaveTime < 1000)))
    ∧ ((saveGate u cid len true false (some s) now).1 = false →
        (saveGate u cid len true false (some s) now).2 = some s)
    ∧ ((saveGate u cid len true false (some s) now).1 = true →
        (saveGate u cid len true false (some s) now).2
          = some { s with messageCount := len, lastSaveTime := now })
    ∧ (saveGate u cid len sidPresent true entry now).1 = true
    ∧ (∀ (now2 : Nat) (st : ConnState) (e : UpstreamEvent) (u2 : String)
        (cid2 : Option String) (msgs : List TranscriptMessage) (sid2 : Option String)
        (f : Bool), Output.save u2 cid2 msgs sid2 f ∈ (step now2 st e).2 → f = true) := by
  have hne : ¬ len = 0 := Nat.pos_iff_ne_zero.mp hlen
  refine ⟨?_, ?_, ?_, ?_, ?_⟩
  · simp only [saveGate, if_neg hne, Bool.not_false, Bool.true_and]
    split_ifs with h1 h2 <;> simp_all
  · simp only [saveGate, if_neg hne, Bool.not_false, Bool.true_and]
    split_ifs with h1 h2 <;> simp_all
  · simp only [saveGate, if_neg hne, Bool.not_false, Bool.true_and]
    split_ifs with h1 h2 <;> simp_all
  · cases entry with
    | none => simp only [saveGate, if_neg hne]; split_ifs <;> rfl
    | some s2 =>
      simp only [saveGate, if_neg hne, Bool.not_true, Bool.false_and, if_neg,
        Bool.false_eq_true, not_false_eq_true]
      split_ifs <;> rfl
  · intro now2 st e u2 cid2 msgs sid2 f hmem
    cases e <;> simp only [step] at hmem <;> (try split at hmem) <;> simp at hmem <;>
      (obtain ⟨u3, heq⟩ := saveOuts_force hmem
       simp only [Output.save.injEq] at heq
       exact heq.2.2.2.2)

/-- C7 (witness): the gate evaluated concretely: a tracked entry with
count 2 suppresses a non-forced save of 2 messages; it admits a
non-forced save of 3 messages made 5000 ms after the previous one,
updating the entry; and a forced save proceeds on the same entry. -/
theorem c7_witness :
    ((saveGate "alice" (some "c1") 2 true false
        (some { username := "alice", conversationId := some "c1",
                messageCount := 2, lastSaveTime := 1000 }) 6000).1 = false)
    ∧ ((saveGate "alice" (some "c1") 3 true false
        (some { username := "alice", conversationId := some "c1",
                messageCount := 2, lastSaveTime := 1000 }) 6000).2
        = some { username := "alice", conversationId := some "c1",
                 messageCount := 3, lastSaveTime := 6000 })
    ∧ ((saveGate "alice" (some "c1") 2 true true
        (some { username := "alice", conversationId := some "c1",
                messageCount := 2, lastSaveTime := 1000 }) 6000).1 = true) := by
  refine ⟨?_, ?_, ?_⟩
  · exact (c7_save_gate "alice" (some "c1")
      { username := "alice", conversationId := some "c1", messageCount := 2, lastSaveTime := 1000 }
      none 2 6000 true (by decide)).1.mpr (Or.inl rfl)
  · exact (c7_save_gate "alice" (some "c1")
      { username := "alice", conversationId := some "c1", messageCount := 2, lastSaveTime := 1000 }
      none 3 6000 true (by decide)).2.2.1 (by decide)
  · exact (c7_save_gate "alice" (some "c1")
      { username := "alice", conversationId := some "c1", messageCount := 2, lastSaveTime := 1000 }
      (some { username := "alice", conversationId := some "c1", messageCount := 2, lastSaveTime := 1000 })
      2 6000 true (by decide)).2.2.2.1

/-! ## C2: interruption and stale deltas -/

/-- The response id and text a delta event carries, if the event is a
delta. -/
def deltaOf : UpstreamEvent → Option (Option String × String)
  | .textDelta r d => some (r, d)
  | .audioTranscriptDelta r d => some (r, d)
  | _ => none

/-- The i-th event of the trace is a speech-started event arriving while
an assistant turn is active with response id `rid` (the id the handler
then cancels). -/
def interruptsAt (s0 : ConnState) (tr : List TEvent) (i : Nat) (rid : String) : Prop :=
  (tr[i]?).map Prod.snd = some .speechStarted
    ∧ (stateAt s0 tr i).activeResponse = true
    ∧ (stateAt s0 tr i).currentResponseId = some rid

/-- Formalisation of claim C2 over one event trace: at every interruption
point exactly one transcript message is appended, interrupted and ending
in the ellipsis marker, and every later delta event carrying the
cancelled response id is discarded - it appends its text nowhere, leaving
the connection state unchanged. -/
def claimC2 (s0 : ConnState) (tr : List TEvent) : Prop :=
  ∀ i rid, interruptsAt s0 tr i rid →
    ((∃ m pre, (stateAt s0 tr (i + 1)).conversationMessages
          = (stateAt s0 tr i).conversationMessages ++ [m]
        ∧ m.interrupted = true ∧ m.content = pre ++ "...")
      ∧ ∀ j te d, i < j → tr[j]? = some te → deltaOf te.2 = some (some rid, d) →
          stateAt s0 tr (j + 1) = stateAt s0 tr j)

/-- A fresh connection for the C2 counterexample trace. -/
def c2State : ConnState := initConn (some "alice") (some "s1") (some "c1") []

/-- Counterexample trace: an assistant turn starts as response r1 and
streams one delta, the user interrupts, then a late delta of the
cancelled response r1 arrives, then the engine reports the response
done. -/
def c2Trace : List TEvent :=
  [(0, .responseCreated "r1"), (1, .textDelta (some "r1") "hi"),
   (2, .speechStarted), (3, .textDelta (some "r1") " more"), (4, .responseDone)]

/-- C2 (counterexample): the handler does not filter deltas by response
id. On the concrete trace the delta of the cancelled response r1 arriving
after the interruption changes the state - its text lands in the reset
accumulator and surfaces as the content of the next finalized transcript
message - so the claim fails at this input. -/
theorem c2_counterexample :
    ¬ claimC2 c2State c2Trace
    ∧ (runState c2State c2Trace).conversationMessages
      = [{ sequence := 0, role := .assistant, content := "hi...",
           timestamp := some 0, interrupted := true },
         { sequence := 1, role := .assistant, content := " more",
           timestamp := none, interrupted := false }] := by
  constructor
  · intro h
    have h2 := (h 2 "r1" ⟨rfl, rfl, rfl⟩).2 3 (3, .textDelta (some "r1") " more")
      " more" (by omega) rfl rfl
    exact absurd h2 (by decide)
  · rfl

/-- C2 (amended): when a speech-started event arrives while an assistant
turn is active, exactly one transcript message is appended, flagged
interrupted and with content the accumulated text plus the ellipsis
marker, and the turn is cleared back to an empty accumulator; however the
delta handlers are response-id blind: any later delta, including one
carrying the cancelled id, appends its text to the current accumulator. -/
theorem c2_interruption_step (s : ConnState) (now : Nat) (rid : String)
    (hA : s.activeResponse = true) (hR : s.currentResponseId = some rid)
    (hrid : rid ≠ "") :
    ((step now s .speechStarted).1.conversationMessages
        = s.conversationMessages
          ++ [{ sequence := s.messageSequence, role := s.currentAssistantMessage.role,
                content := s.currentAssistantMessage.content ++ "...",
                timestamp := s.currentAssistantMessage.timestamp, interrupted := true }])
    ∧ (step now s .speechStarted).1.activeResponse = false
    ∧ (step now s .speechStarted).1.currentResponseId = none
    ∧ (step now s .speechStarted).1.currentAssistantMessage = freshAccum
    ∧ (∀ (r : Option String) (d : String),
        (step now s (.textDelta r d)).1.currentAssistantMessage.content
          = s.currentAssistantMessage.content ++ d
        ∧ (step now s (.audioTranscriptDelta r d)).1.currentAssistantMessage.content
          = s.currentAssistantMessage.content ++ d) := by
  have ht : (s.activeResponse && optStrTruthy s.currentResponseId) = true := by
    simp [hA, hR, optStrTruthy, bne_iff_ne, hrid]
  refine ⟨?_, ?_, ?_, ?_, fun r d => ⟨rfl, rfl⟩⟩ <;> simp [step, ht]

/-- A concrete connection state with an active turn and accumulated text
for evaluating the single-step theorems. -/
def activeState (content : String) : ConnState :=
  { username := some "alice"
    conversationId := some "c1"
    sessionId := some "s1"
    conversationMessages := []
    messageSequence := 0
    activeResponse := true
    currentResponseId := some "r1"
    currentAssistantMessage :=
      { role := .assistant, content := content, timestamp := some 5, interrupted := false } }

/-- C2 (witness): the interruption step evaluated at a concrete active
state with accumulated text. -/
theorem c2_witness :
    (step 7 (activeState "Hel") .speechStarted).1.conversationMessages
      = [{ sequence := 0, role := .assistant, content := "Hel...",
           timestamp := some 5, interrupted := true }] := by
  have h := c2_interruption_step (activeState "Hel") 7 "r1" rfl rfl (by decide)
  simpa using h.1

/-! ## C8, C9, C10: single-step properties of the handler -/

/-- C8: a response-created event arriving while a turn is already active
leaves the transcript unchanged (the stale accumulator content reaches no
transcript message at this step) and starts a fresh accumulator with
empty content, the current instant and interrupted = false, replacing -
never merging with - the old one; the single activity flag keeps at most
one turn active. -/
theorem c8_response_created_discards (s : ConnState) (now : Nat) (id : String)
    (_hA : s.activeResponse = true) :
    (step now s (.responseCreated id)).1.conversationMessages = s.conversationMessages
    ∧ (step now s (.responseCreated id)).1.activeResponse = true
    ∧ (step now s (.responseCreated id)).1.currentResponseId = some id
    ∧ (step now s (.responseCreated id)).1.currentAssistantMessage
        = { role := .assistant, content := "", timestamp := some now, interrupted := false } :=
  ⟨rfl, rfl, rfl, rfl⟩

/-- C8 (witness): the response-created step evaluated at a concrete
active state holding stale accumulator content. -/
theorem c8_witness :
    (step 9 (activeState "stale") (.responseCreated "r2")).1.currentAssistantMessage
      = { role := .assistant, content := "", timestamp := some 9, interrupted := false } := by
  have h := c8_response_created_discards (activeState "stale") 9 "r2" rfl
  exact h.2.2.2

/-- C9: a response-done event with an empty or whitespace-only
accumulated content appends no transcript message and emits no save - the
only output is the response-complete notification to the client - while
the accumulator is still reset and the turn cleared. -/
theorem c9_blank_response_done (s : ConnState) (now : Nat)
    (hb : isBlankStr s.currentAssistantMessage.content = true) :
    (step now s .responseDone).1.conversationMessages = s.conversationMessages
    ∧ (step now s .responseDone).2 = [Output.clientSend .responseComplete]
    ∧ (step now s .responseDone).1.currentAssistantMessage = freshAccum
    ∧ (step now s .responseDone).1.activeResponse = false
    ∧ (step now s .responseDone).1.currentResponseId = none := by
  refine ⟨?_, ?_, ?_, ?_, ?_⟩ <;> simp [step, hb]

/-- C9 (witness): the response-done step evaluated at a concrete state
whose accumulator holds only whitespace. -/
theorem c9_witness :
    (step 4 (activeState "  ") .responseDone).2
      = [Output.clientSend .responseComplete] := by
  have h := c9_blank_response_done (activeState "  ") 4 (by decide)
  exact h.2.1

/-- C10: a speech-started interruption of an active turn whose
accumulator is still empty nevertheless appends a transcript message -
content exactly the ellipsis marker, interrupted = true - and emits a
forced save for it: interruption applies no blank-content filter. -/
theorem c10_interrupt_empty_accumulator (s : ConnState) (now : Nat) (rid u : String)
    (hA : s.activeResponse = true) (hR : s.currentResponseId = some rid)
    (hrid : rid ≠ "") (hc : s.currentAssistantMessage.content = "")
    (hu : s.username = some u) (hune : u ≠ "") :
    (step now s .speechStarted).1.conversationMessages
      = s.conversationMessages
        ++ [{ sequence := s.messageSequence, role := s.currentAssistantMessage.role,
              content := "...", timestamp := s.currentAssistantMessage.timestamp,
              interrupted := true }]
    ∧ (step now s .speechStarted).2
      = [Output.save u s.conversationId
           (s.conversationMessages
             ++ [{ sequence := s.messageSequence, role := s.currentAssistantMessage.role,
                   content := "...", timestamp := s.currentAssistantMessage.timestamp,
                   interrupted := true }])
           s.sessionId true,
         Output.upstreamSend .responseCancel, Output.clientSend .responseInterrupted] := by
  have ht : (s.activeResponse && optStrTruthy s.currentResponseId) = true := by
    simp [hA, hR, optStrTruthy, bne_iff_ne, hrid]
  constructor <;> simp [step, ht, saveOuts, hu, bne_iff_ne, hune, hc]

/-- C10 (witness): the empty-accumulator interruption evaluated at a
concrete active state. -/
theorem c10_witness :
    (step 6 (activeState "") .speechStarted).1.conversationMessages
      = [{ sequence := 0, role := .assistant, content := "...",
           timestamp := some 5, interrupted := true }] := by
  have h := c10_interrupt_empty_accumulator (activeState "") 6 "r1" "alice"
    rfl rfl (by decide) rfl rfl (by decide)
  simpa using h.1

/-! ## C4: sequence numbers are gapless and immutable -/

/-- The sequence numbers of the list are exactly 0, 1, 2, ... in order
(strictly increasing, gapless, starting at 0). -/
def Gapless (l : List TranscriptMessage) : Prop :=
  l.map TranscriptMessage.sequence = List.range l.length

/-- The connection invariant behind C4: the next sequence counter equals
the transcript length and the transcript is gapless. -/
def SeqInv (s : ConnState) : Prop :=
  s.messageSequence = s.conversationMessages.length ∧ Gapless s.conversationMessages

lemma gapless_push {l : List TranscriptMessage} {m : TranscriptMessage}
    (h : Gapless l) (hm : m.sequence = l.length) : Gapless (l ++ [m]) := by
  unfold Gapless at h ⊢
  simp only [List.map_append, List.map_cons, List.map_nil, List.length_append,
    List.length_cons, List.length_nil, Nat.add_zero]
  rw [h, hm, List.range_succ]

lemma seqInv_step (now : Nat) (s : ConnState) (e : UpstreamEvent) (h : SeqInv s) :
    SeqInv (step now s e).1
      ∧ ∃ rest, (step now s e).1.conversationMessages = s.conversationMessages ++ rest := by
  obtain ⟨h1, h2⟩ := h
  cases e <;> simp only [step] <;> (try split) <;>
    first
      | exact ⟨⟨h1, h2⟩, [], (List.append_nil _).symm⟩
      | refine ⟨⟨by simp [h1], gapless_push h2 (by simpa using h1)⟩, ⟨_, rfl⟩⟩

lemma runState_append (s : ConnState) (tr tr2 : List TEvent) :
    runState s (tr ++ tr2) = runState (runState s tr) tr2 := by
  induction tr generalizing s with
  | nil => rfl
  | cons te rest ih =>
    obtain ⟨t, e⟩ := te
    simp [runState, ih]

lemma seqInv_run (tr : List TEvent) (s : ConnState) (h : SeqInv s) :
    SeqInv (runState s tr)
      ∧ ∃ rest, (runState s tr).conversationMessages = s.conversationMessages ++ rest := by
  induction tr generalizing s with
  | nil => exact ⟨h, [], (List.append_nil _).symm⟩
  | cons te rest ih =>
    obtain ⟨t, e⟩ := te
    obtain ⟨hs, r1, hr1⟩ := seqInv_step t s e h
    obtain ⟨hrun, r2, hr2⟩ := ih _ hs
    refine ⟨hrun, r1 ++ r2, ?_⟩
    show (runState (step t s e).1 rest).conversationMessages = _
    rw [hr2, hr1, List.append_assoc]

/-- C4: starting from a connection whose preloaded prior messages are
gapless (as every transcript this very invariant produces is), after any
event trace the finalized transcript is strictly increasing and gapless
from 0; and under any further events the earlier transcript stays an
unchanged prefix, so a sequence number never changes after its message is
appended. -/
theorem c4_sequence_gapless (username sessionId conversationId : Option String)
    (prev : List TranscriptMessage) (hprev : Gapless prev) (tr tr2 : List TEvent) :
    Gapless (runState (initConn username sessionId conversationId prev) tr).conversationMessages
    ∧ ∃ rest,
        (runState (initConn username sessionId conversationId prev) (tr ++ tr2)).conversationMessages
          = (runState (initConn username sessionId conversationId prev) tr).conversationMessages
              ++ rest := by
  have h0 : SeqInv (initConn username sessionId conversationId prev) := ⟨rfl, hprev⟩
  obtain ⟨hinv, -⟩ := seqInv_run tr _ h0
  refine ⟨hinv.2, ?_⟩
  rw [runState_append]
  exact (seqInv_run tr2 _ hinv).2

/-- C4 (witness): the gapless property evaluated on a resume preloading
one prior message followed by a full assistant turn and a later event. -/
theorem c4_witness :
    Gapless (runState (initConn (some "alice") (some "s1") (some "c1")
        [{ sequence := 0, role := .user, content := "hey", timestamp := some 1, interrupted := false }])
        [(2, .responseCreated "r1"), (3, .textDelta none "ok"), (4, .responseDone)]).conversationMessages
    ∧ ∃ rest,
        (runState (initConn (some "alice") (some "s1") (some "c1")
            [{ sequence := 0, role := .user, content := "hey", timestamp := some 1, interrupted := false }])
          ([(2, .responseCreated "r1"), (3, .textDelta none "ok"), (4, .responseDone)]
            ++ [(5, .transcriptionCompleted "again")])).conversationMessages
          = (runState (initConn (some "alice") (some "s1") (some "c1")
              [{ sequence := 0, role := .user, content := "hey", timestamp := some 1, interrupted := false }])
              [(2, .responseCreated "r1"), (3, .textDelta none "ok"), (4, .responseDone)]).conversationMessages
              ++ rest :=
  c4_sequence_gapless (some "alice") (some "s1") (some "c1")
    [{ sequence := 0, role := .user, content := "hey", timestamp := some 1, interrupted := false }]
    rfl
    [(2, .responseCreated "r1"), (3, .textDelta none "ok"), (4, .responseDone)]
    [(5, .transcriptionCompleted "again")]

/-! ## C5: the longer transcript wins -/

/-- C5: when a complete-transcript event arrives and the turn then
finalizes, the finalized transcript message content is the complete
transcript if it is strictly longer than the delta-accumulated text, and
the delta-accumulated text otherwise - always the longer of the two. The
hypothesis states the winning text is not whitespace-only, so the
finalize step appends it. -/
theorem c5_longer_transcript_wins (s : ConnState) (t1 t2 : Nat) (t : String)
    (hnb : isBlankStr (if s.currentAssistantMessage.content.length < t.length then t
        else s.currentAssistantMessage.content) = false) :
    (runState s [(t1, .audioTranscriptDone t), (t2, .responseDone)]).conversationMessages
      = s.conversationMessages
        ++ [{ sequence := s.messageSequence
              role := s.currentAssistantMessage.role
              content := if s.currentAssistantMessage.content.length < t.length then t
                else s.currentAssistantMessage.content
              timestamp := s.currentAssistantMessage.timestamp
              interrupted := false }] := by
  by_cases hlt : s.currentAssistantMessage.content.length < t.length
  · rw [if_pos hlt] at hnb
    simp [runState, step, hlt, hnb]
  · rw [if_neg hlt] at hnb
    simp [runState, step, hlt, hnb]

/-- C5 (witness): both branches evaluated concretely: a complete
transcript longer than the accumulated text wins; a shorter one loses to
the accumulated text. -/
theorem c5_witness :
    (runState (activeState "Hel") [(8, .audioTranscriptDone "Hello there"), (9, .responseDone)]).conversationMessages
      = [{ sequence := 0, role := .assistant, content := "Hello there",
           timestamp := some 5, interrupted := false }]
    ∧ (runState (activeState "Hello there") [(8, .audioTranscriptDone "Hel"), (9, .responseDone)]).conversationMessages
      = [{ sequence := 0, role := .assistant, content := "Hello there",
           timestamp := some 5, interrupted := false }] := by
  constructor
  · have h := c5_longer_transcript_wins (activeState "Hel") 8 9 "Hello there" (by decide)
    simpa using h
  · have h := c5_longer_transcript_wins (activeState "Hello there") 8 9 "Hel" (by decide)
    simpa using h

/-! ## C6: upstream error handling -/

/-- One invocation of the error branch of the handler. -/
def errStep (now : Nat) (s : ConnState) (etype emsg : String) :
    ConnState × List Output :=
  step now s (.errorEvent etype emsg)

/-- Does the message contain one of the transient markers the claim
names. -/
def transientC6 (emsg : String) : Bool :=
  strHasSub emsg "buffer too small" || strHasSub emsg "no active response"

/-- Formalisation of claim C6 at one error event: a transient-marker
error is never forwarded and changes no state; every other error is
forwarded; and an error arriving while a turn is active reverts the
state to idle without appending a transcript message. -/
def claimC6 (now : Nat) (s : ConnState) (etype emsg : String) : Prop :=
  (transientC6 emsg = true →
      (errStep now s etype emsg).2 = [] ∧ (errStep now s etype emsg).1 = s)
    ∧ (transientC6 emsg = false →
        Output.clientSend (.errorMsg emsg) ∈ (errStep now s etype emsg).2)
    ∧ (s.activeResponse = true →
        (errStep now s etype emsg).1.activeResponse = false
          ∧ (errStep now s etype emsg).1.conversationMessages = s.conversationMessages)

/-- C6 (counterexample): at the concrete input of an active turn and an
upstream error of type server_error with message "boom", the claim fails:
the handler forwards the error but leaves the turn active - state
reverts to idle only for errors of type invalid_request_error. -/
theorem c6_counterexample : ¬ claimC6 0 (activeState "Hel") "server_error" "boom" := by
  intro h
  exact absurd (h.2.2 rfl).1 (by decide)

/-- C6 (amended): the handler forwards an error to the client exactly
when its message contains neither "buffer too small" nor the substring
"active response" (so messages containing "no active response" are
swallowed, but so is any other message mentioning an active response);
the turn state resets to idle exactly when the error type is
invalid_request_error, transient or not; and the error handler never
appends a transcript message or touches the accumulator. -/
theorem c6_error_handling (now : Nat) (s : ConnState) (etype emsg : String) :
    ((errStep now s etype emsg).2
        = if strHasSub emsg "buffer too small" || strHasSub emsg "active response" then []
          else [Output.clientSend (.errorMsg emsg)])
    ∧ ((errStep now s etype emsg).1.activeResponse
        = if etype = "invalid_request_error" then false else s.activeResponse)
    ∧ ((errStep now s etype emsg).1.currentResponseId
        = if etype = "invalid_request_error" then none else s.currentResponseId)
    ∧ (errStep now s etype emsg).1.conversationMessages = s.conversationMessages
    ∧ (errStep now s etype emsg).1.currentAssistantMessage = s.currentAssistantMessage := by
  refine ⟨rfl, ?_, ?_, ?_, ?_⟩ <;>
    by_cases he : etype = "invalid_request_error" <;> simp [errStep, step, he]

/-- C6 (witness): the amended behaviour evaluated concretely: a message
mentioning an active response is swallowed; "boom" of type server_error
is forwarded with the turn left untouched; "boom" of type
invalid_request_error resets the turn. -/
theorem c6_witness :
    (errStep 0 (activeState "Hel") "invalid_request_error" "Conversation already has an active response").2 = []
    ∧ (errStep 0 (activeState "Hel") "server_error" "boom").2
        = [Output.clientSend (.errorMsg "boom")]
    ∧ (errStep 0 (activeState "Hel") "server_error" "boom").1.activeResponse = true
    ∧ (errStep 0 (activeState "Hel") "invalid_request_error" "boom").1.activeResponse = false := by
  refine ⟨?_, ?_, ?_, ?_⟩
  · have h := (c6_error_handling 0 (activeState "Hel") "invalid_request_error"
      "Conversation already has an active response").1
    rw [h]; decide
  · have h := (c6_error_handling 0 (activeState "Hel") "server_error" "boom").1
    rw [h]; decide
  · have h := (c6_error_handling 0 (activeState "Hel") "server_error" "boom").2.1
    rw [h]; decide
  · have h := (c6_error_handling 0 (activeState "Hel") "invalid_request_error" "boom").2.1
    rw [h]; decide

end VoiceAgent
